import Mathlib

/-!
Shallow embedding of the interval/timeline algebra and the timeline
reconciliation engine of the sdtoolplus synchronization service
(src/sdtoolplus/models.py, src/sdtoolplus/timeline.py,
src/sdtoolplus/mo/timeline.py, src/sdtoolplus/app.py), together with
theorems checking the natural-language specification against it.

Timestamps: Python timezone-aware datetimes are totally ordered instants;
they are modelled as integers (seconds).  The two sentinels
datetime.min / datetime.max (NEGATIVE_INFINITY / POSITIVE_INFINITY in
src/sdtoolplus/models.py) become two fixed integer constants, and
timedelta(days=1) becomes the constant one_day.  All source operations on
datetimes used here are order comparisons, equality tests and adding or
subtracting one day, which this model reflects exactly (Python datetime
plus or minus a timedelta is exact wall-clock arithmetic on aware
datetimes).
-/

namespace Sdtoolplus

/-- Seconds of datetime.max with UTC zone, the POSITIVE_INFINITY sentinel of
src/sdtoolplus/models.py line 26. -/
def POSITIVE_INFINITY : Int := 253402300799

/-- Seconds of datetime.min with UTC zone, the NEGATIVE_INFINITY sentinel of
src/sdtoolplus/models.py line 25. -/
def NEGATIVE_INFINITY : Int := -62135596800

/-- Seconds of timedelta(days=1). -/
def one_day : Int := 86400

/-- A Python datetime as seen by the Interval root validator: the instant
itself plus whether its tzinfo is a ZoneInfo instance (the only thing the
validator inspects). -/
structure Dt where
  t : Int
  hasZoneInfo : Bool
deriving Repr, DecidableEq

/-- Interval from src/sdtoolplus/models.py lines 38-70: a half-open span
[start, end) carrying a value.  A constructed interval is just the triple;
the construction-time validation is modelled by Interval.construct. -/
structure Interval (V : Type) where
  start : Int
  end_ : Int
  value : V
deriving Repr, DecidableEq

/-- Pydantic construction of an Interval (src/sdtoolplus/models.py lines
51-59): the ensure_timezones root validator rejects a start or end whose
tzinfo is not a ZoneInfo; no other validation runs (in particular nothing
compares end with start). -/
def Interval.construct {V : Type} (s e : Dt) (v : V) : Except String (Interval V) :=
  if s.hasZoneInfo && e.hasZoneInfo then
    Except.ok { start := s.t, end_ := e.t, value := v }
  else
    Except.error "Timezone must be provided"

/-- RAValidityInput as used by the MO mutator: from date plus optional
inclusive end date (None encodes an open end). -/
structure RAValidityInput where
  from_ : Int
  to_ : Option Int
deriving Repr, DecidableEq

/-- The MO reader's end adjustment _mo_end_datetime
(src/sdtoolplus/mo/timeline.py lines 40-41): add one day to a non-NULL end,
map NULL to POSITIVE_INFINITY. -/
def _mo_end_datetime : Option Int → Int
  | some d => d + one_day
  | none => POSITIVE_INFINITY

/-- The MO mutator's end rewrite _get_mo_validity
(src/sdtoolplus/mo/timeline.py lines 44-51): POSITIVE_INFINITY becomes None,
a finite end becomes end minus one day. -/
def _get_mo_validity (start end_ : Int) : RAValidityInput :=
  { from_ := start
    to_ := if end_ = POSITIVE_INFINITY then none else some (end_ - one_day) }

/-- more_itertools.split_when: split a list into maximal runs, starting a new
run between x and y exactly when the predicate holds on the pair (x, y). -/
def splitWhen {α : Type} (p : α → α → Bool) : List α → List (List α)
  | [] => []
  | [x] => [[x]]
  | x :: y :: ys =>
    match splitWhen p (y :: ys) with
    | [] => [[x]]
    | g :: gs => if p x y then [x] :: g :: gs else (x :: g) :: gs

/-- combine_intervals from src/sdtoolplus/models.py lines 116-135: split the
input with split_when on (i1.end < i2.start or i1.value != i2.value), then
replace each group by its first interval with the end of its last. -/
def combine_intervals {V : Type} [DecidableEq V]
    (intervals : List (Interval V)) : List (Interval V) :=
  (splitWhen (fun i1 i2 => decide (i1.end_ < i2.start) || decide (i1.value ≠ i2.value))
      intervals).filterMap
    (fun g =>
      match g with
      | [] => none
      | f :: rest => some { f with end_ := (rest.getLastD f).end_ })

/-- The grouping the claim describes, written from its words: a group may
only continue across a pair that touches (i.end = j.start) with equal
values; every other pair terminates the group.  Kept separate so it can be
compared with combine_intervals. -/
def combine_intervals_spec {V : Type} [DecidableEq V]
    (intervals : List (Interval V)) : List (Interval V) :=
  (splitWhen (fun i1 i2 => !(decide (i1.end_ = i2.start) && decide (i1.value = i2.value)))
      intervals).filterMap
    (fun g =>
      match g with
      | [] => none
      | f :: rest => some { f with end_ := (rest.getLastD f).end_ })

/-- Starts of a list of intervals. -/
def starts_list {V : Type} (l : List (Interval V)) : List Int :=
  l.map Interval.start

/-- The intervals_must_be_sorted validator (src/sdtoolplus/models.py lines
155-161): the list of starts equals its sorted copy. -/
def sorted_check {V : Type} (l : List (Interval V)) : Bool :=
  decide (starts_list l = List.insertionSort (· ≤ ·) (starts_list l))

/-- Python all(p(i1, i2) for i1, i2 in pairwise(l)). -/
def pairwise_all {α : Type} (p : α → α → Bool) : List α → Bool
  | [] => true
  | [_] => true
  | x :: y :: ys => p x y && pairwise_all p (y :: ys)

/-- The intervals_cannot_overlap validator (src/sdtoolplus/models.py lines
163-167): every adjacent pair has i1.end <= i2.start. -/
def no_overlap_check {V : Type} (l : List (Interval V)) : Bool :=
  pairwise_all (fun i1 i2 => decide (i1.end_ ≤ i2.start)) l

/-- The successively_repeated_interval_values_not_allowed validator
(src/sdtoolplus/models.py lines 169-176): adjacent pairs with
i1.end = i2.start must have different values. -/
def no_touching_equal_check {V : Type} [DecidableEq V] (l : List (Interval V)) : Bool :=
  pairwise_all
    (fun i1 i2 => if i1.end_ = i2.start then decide (i1.value ≠ i2.value) else true) l

/-- Conjunction of the order-related Timeline validators
(src/sdtoolplus/models.py lines 141-176); the two type-membership validators
are enforced by typing in this embedding. -/
def timeline_validators {V : Type} [DecidableEq V] (l : List (Interval V)) : Bool :=
  sorted_check l && no_overlap_check l && no_touching_equal_check l

/-- Whether the half-open span of an interval contains t. -/
def covers {V : Type} (i : Interval V) (t : Int) : Bool :=
  decide (i.start ≤ t) && decide (t < i.end_)

/-- Outcome of Timeline.entity_at: the found interval, the NoValueError case,
or the ValueError that more_itertools.only raises on several matches. -/
inductive EntityAtResult (V : Type) where
  | found (i : Interval V)
  | noValue
  | multipleValues
deriving Repr, DecidableEq

/-- Timeline.entity_at from src/sdtoolplus/models.py lines 178-184: filter
the intervals whose span contains the timestamp; none matching is the
NoValueError case, several matching the ValueError case of only. -/
def entity_at {V : Type} (l : List (Interval V)) (t : Int) : EntityAtResult V :=
  match l.filter (fun e => covers e t) with
  | [] => EntityAtResult.noValue
  | [e] => EntityAtResult.found e
  | _ => EntityAtResult.multipleValues

/-- Python itertools.pairwise: the list of adjacent pairs. -/
def adjacent_pairs {α : Type} (l : List α) : List (α × α) := l.zip l.tail

/-- Every start and every end occurring in a list of intervals. -/
def endpoints_of {V : Type} (l : List (Interval V)) : List Int :=
  l.flatMap (fun i => [i.start, i.end_])

/-- Modelled from the spec: Timeline.diff is absent from
src/sdtoolplus/models.py (only src/tests/test_models.py exercises it); this
is the point query it relies on, spec section 3: the unique interval whose
half-open span contains t, or NONE when no interval covers t. -/
def value_at {V : Type} (l : List (Interval V)) (t : Int) : Option (Interval V) :=
  (l.filter (fun e => covers e t)).head?

/-- The sorted union of the endpoint sets of both timelines, spec section
4.1 step 1. -/
def diff_endpoints {V : Type} (us them : List (Interval V)) : List Int :=
  List.insertionSort (· ≤ ·) ((endpoints_of us ++ endpoints_of them).dedup)

/-- Modelled from the spec: one step of Timeline.diff on the adjacent
endpoint pair (a, b), spec section 4.1 step 3: emit the self value where the
other side lacks one or differs, an explicit missing marker where only the
other side has a value, nothing where both agree or both are absent. -/
def diff_step {V : Type} [DecidableEq V] (us them : List (Interval V))
    (ab : Int × Int) : Option (Interval (Option V)) :=
  match value_at us ab.1, value_at them ab.1 with
  | some va, none => some { start := ab.1, end_ := ab.2, value := some va.value }
  | none, some _ => some { start := ab.1, end_ := ab.2, value := none }
  | some va, some vb =>
      if va.value = vb.value then none
      else some { start := ab.1, end_ := ab.2, value := some va.value }
  | none, none => none

/-- Modelled from the spec: Timeline.diff is absent from
src/sdtoolplus/models.py; spec section 4.1: walk the adjacent pairs of the
sorted endpoint union, emit per diff_step, and combine the raw output. -/
def diff {V : Type} [DecidableEq V] (us them : List (Interval V)) :
    List (Interval (Option V)) :=
  combine_intervals ((adjacent_pairs (diff_endpoints us them)).filterMap (diff_step us them))

/-- MO org-unit UUIDs, abstracted to naturals. -/
abbrev OrgUnitUUID := Nat

/-- UnitTimeline from src/sdtoolplus/models.py lines 191-225: the five member
timelines of one org unit. -/
structure UnitTimeline where
  active : List (Interval Bool)
  name : List (Interval String)
  unit_id : List (Interval String)
  unit_level : List (Interval (Option String))
  parent : List (Interval (Option OrgUnitUUID))
deriving Repr, DecidableEq

/-- Whether entity_at found a value. -/
def is_found {V : Type} : EntityAtResult V → Bool
  | EntityAtResult.found _ => true
  | _ => false

/-- UnitTimeline.has_value from src/sdtoolplus/models.py lines 198-208: every
member timeline has an interval at the timestamp. -/
def UnitTimeline.has_value (ut : UnitTimeline) (t : Int) : Bool :=
  is_found (entity_at ut.active t) && is_found (entity_at ut.name t) &&
    is_found (entity_at ut.unit_id t) && is_found (entity_at ut.unit_level t) &&
    is_found (entity_at ut.parent t)

/-- UnitTimeline.equal_at from src/sdtoolplus/models.py lines 210-225. -/
def UnitTimeline.equal_at (ut : UnitTimeline) (t : Int) (other : UnitTimeline) : Bool :=
  if ut.has_value t = other.has_value t then
    if ut.has_value t = false then true
    else
      decide (entity_at ut.active t = entity_at other.active t) &&
        decide (entity_at ut.name t = entity_at other.name t) &&
        decide (entity_at ut.unit_id t = entity_at other.unit_id t) &&
        decide (entity_at ut.unit_level t = entity_at other.unit_level t) &&
        decide (entity_at ut.parent t = entity_at other.parent t)
  else false

/-- All five member timelines pass the Timeline validators. -/
def UnitTimeline.wellFormed (ut : UnitTimeline) : Bool :=
  timeline_validators ut.active && timeline_validators ut.name &&
    timeline_validators ut.unit_id && timeline_validators ut.unit_level &&
    timeline_validators ut.parent

/-- _get_ou_interval_endpoints from src/sdtoolplus/timeline.py lines 22-35:
the set of starts and ends of the intervals of the active, name, unit_id and
unit_level member timelines.  The parent member is not consulted. -/
def _get_ou_interval_endpoints (ut : UnitTimeline) : List Int :=
  (endpoints_of ut.active ++ endpoints_of ut.name ++ endpoints_of ut.unit_id ++
    endpoints_of ut.unit_level).dedup

/-- The endpoint partition sync_ou iterates, src/sdtoolplus/timeline.py lines
48-52: the sorted union of both units' interval endpoint sets. -/
def sync_ou_endpoints (sd mo : UnitTimeline) : List Int :=
  List.insertionSort (· ≤ ·)
    ((_get_ou_interval_endpoints sd ++ _get_ou_interval_endpoints mo).dedup)

/-- The endpoint partition the claim describes, written from its words: the
sorted union of every start and every end of every one of the five member
timelines (parent included) of both sides. -/
def sync_ou_endpoints_spec (sd mo : UnitTimeline) : List Int :=
  List.insertionSort (· ≤ ·)
    (((endpoints_of sd.active ++ endpoints_of sd.name ++ endpoints_of sd.unit_id ++
        endpoints_of sd.unit_level ++ endpoints_of sd.parent).dedup ++
      (endpoints_of mo.active ++ endpoints_of mo.name ++ endpoints_of mo.unit_id ++
        endpoints_of mo.unit_level ++ endpoints_of mo.parent).dedup).dedup)

/-- One stored validity row of an org unit in MO, as get_org_unit_timeline
returns them: from date plus optional inclusive end date. -/
structure OrgUnitValidity where
  from_ : Int
  to_ : Option Int
deriving Repr, DecidableEq

/-- The mutations sync_ou can emit for a sub-interval [a, b). -/
inductive OUMutation where
  | create (a b : Int)
  | update (a b : Int)
  | terminate (a b : Int)
deriving Repr, DecidableEq

/-- One iteration of the sync_ou loop (src/sdtoolplus/timeline.py lines
55-88) on the endpoint pair ab, returning the next guard state together with
the emitted mutation: st says whether get_org_unit_timeline(from_date=None,
to_date=None) currently returns the unit, and executing create_org_unit
makes every later guard query return it. -/
def sync_ou_step (sd mo : UnitTimeline) (st : Bool) (ab : Int × Int) :
    Bool × Option OUMutation :=
  if sd.equal_at ab.1 mo then (st, none)
  else if sd.has_value ab.1 then
    if st then (st, some (OUMutation.update ab.1 ab.2))
    else (true, some (OUMutation.create ab.1 ab.2))
  else (st, some (OUMutation.terminate ab.1 ab.2))

/-- The sync_ou loop over the adjacent endpoint pairs, threading the guard
state: an update or a terminate leaves the unit's registration in MO as it
is for the purpose of the nonempty-objects guard, while a create makes every
later query nonempty. -/
def sync_ou_loop (sd mo : UnitTimeline) : Bool → List (Int × Int) → List OUMutation
  | _, [] => []
  | st, ab :: rest =>
    match sync_ou_step sd mo st ab with
    | (st2, none) => sync_ou_loop sd mo st2 rest
    | (st2, some m) => m :: sync_ou_loop sd mo st2 rest

/-- sync_ou from src/sdtoolplus/timeline.py lines 38-88, as the sequence of
mutations it emits.  mo_repo_validities is the unit's stored list of MO
validities before the run; the update-versus-create guard re-runs
get_org_unit_timeline(from_date=None, to_date=None) on every endpoint pair,
so its objects are nonempty from the point where the unit pre-existed or an
earlier iteration created it. -/
def sync_ou (sd mo : UnitTimeline) (mo_repo_validities : List OrgUnitValidity) :
    List OUMutation :=
  sync_ou_loop sd mo (!mo_repo_validities.isEmpty)
    (adjacent_pairs (sync_ou_endpoints sd mo))

/-- The SD unit timeline of a unit whose name changes mid-history: active on
[0, 10) with the name A on [0, 5) and B on [5, 10). -/
def sd_name_change_example : UnitTimeline :=
  UnitTimeline.mk [Interval.mk 0 10 true]
    [Interval.mk 0 5 "A", Interval.mk 5 10 "B"] [Interval.mk 0 10 "i"]
    [Interval.mk 0 10 (some "l")] [Interval.mk 0 10 (some 1)]

/-- The MO unit timeline of a unit unknown to MO. -/
def mo_empty_example : UnitTimeline := UnitTimeline.mk [] [] [] [] []

/-- A timestamp is a start or an end of some interval of the list. -/
def is_endpoint {V : Type} (t : Int) (l : List (Interval V)) : Prop :=
  ∃ i ∈ l, t = i.start ∨ t = i.end_

/-- The guard the claim describes, written from its words: some MO validity
of the unit exists over the sub-interval [a, b).  A validity row (from, to)
spans [from, to plus one day) — POSITIVE_INFINITY for a NULL to — so it
meets [a, b) exactly when from is below b and a is below that end. -/
def validity_overlaps (v : OrgUnitValidity) (a b : Int) : Bool :=
  decide (v.from_ < b) && decide (a < _mo_end_datetime v.to_)

/-- Modelled from the spec: the mutation kinds of the tree-diff executor —
tree_diff_executor.py is absent from src/ (only src/sdtoolplus/app.py imports
it).  Spec section 4.4: the differ emits unit Add and Update operations (a
Move is an Update carrying the new parent); Terminate is the remaining unit
mutation kind named by obligation M4. -/
inductive AnyMutation where
  | addOrgUnit
  | updateOrgUnit
  | terminateOrgUnit
deriving Repr, DecidableEq

/-- Modelled from the spec: the isinstance(mutation, UpdateOrgUnitMutation)
test in App._should_apply_ny_logic over the absent class hierarchy.  Spec
obligation M4 — the side channel runs after a successful unit Add or Update
but never a Terminate — together with the integration tests (apply-ny-logic
is called for newly added units) fix the Add mutation class to satisfy the
check and the Terminate kind to fail it. -/
def isinstance_UpdateOrgUnitMutation : AnyMutation → Bool
  | AnyMutation.addOrgUnit => true
  | AnyMutation.updateOrgUnit => true
  | AnyMutation.terminateOrgUnit => false

/-- An org-unit node as far as the obsolete-units test needs it: its uuid
together with every uuid on its ancestor path (itself included). -/
structure OrgUnitNode where
  uuid : OrgUnitUUID
  path_uuids : List OrgUnitUUID
deriving Repr, DecidableEq

/-- Modelled from the spec: in_obsolete_units_subtree — diff_org_trees.py is
absent from src/.  Per the glossary, a unit lies in the obsolete-units
subtree when a configured obsolete root occurs on its ancestor path. -/
def in_obsolete_units_subtree (node : OrgUnitNode) (roots : List OrgUnitUUID) : Bool :=
  node.path_uuids.any (fun u => roots.contains u)

/-- The settings fields App._should_apply_ny_logic consults. -/
structure SDToolPlusSettings where
  apply_ny_logic : Bool
  obsolete_unit_roots : List OrgUnitUUID
deriving Repr, DecidableEq

/-- App._should_apply_ny_logic from src/sdtoolplus/app.py lines 277-289. -/
def _should_apply_ny_logic (settings : SDToolPlusSettings) (mutation : AnyMutation)
    (org_unit_node : OrgUnitNode) (dry_run : Bool) : Bool :=
  if settings.apply_ny_logic = false ∨ dry_run = true ∨
      isinstance_UpdateOrgUnitMutation mutation = false ∨
      in_obsolete_units_subtree org_unit_node settings.obsolete_unit_roots = true then
    false
  else true

/-- App.execute from src/sdtoolplus/app.py lines 223-250: after each
successfully executed mutation the apply-ny-logic side channel is called
exactly when _should_apply_ny_logic holds; this collects the uuids it is
called for. -/
def execute_apply_ny_logic_calls (settings : SDToolPlusSettings) (dry_run : Bool)
    (executed : List (OrgUnitNode × AnyMutation × OrgUnitUUID)) : List OrgUnitUUID :=
  (executed.filter (fun r => _should_apply_ny_logic settings r.2.1 r.1 dry_run)).map
    (fun r => r.2.2)

/-- MO class UUIDs, abstracted to naturals. -/
abbrev ClassUUID := Nat

/-- One stored validity of an engagement in MO, restricted to the fields
update_engagement reads from it (src/sdtoolplus/mo/timeline.py lines
443-468); primary and engagement_type stand for the uuid of the
corresponding class object. -/
structure EngagementValidity where
  uuid : Nat
  primary : Option ClassUUID
  extension_2 : Option String
  extension_3 : Option String
  extension_4 : Option String
  extension_5 : Option String
  extension_6 : Option String
  extension_7 : Option String
  extension_8 : Option String
  extension_9 : Option String
  extension_10 : Option String
  engagement_type : ClassUUID
deriving Repr, DecidableEq

/-- The EngagementUpdateInput fields set by update_engagement. -/
structure EngagementUpdateInput where
  uuid : Nat
  user_key : String
  primary : Option ClassUUID
  validity : RAValidityInput
  extension_1 : Option String
  extension_2 : Option String
  extension_3 : Option String
  extension_4 : Option String
  extension_5 : Option String
  extension_6 : Option String
  extension_7 : Option String
  extension_8 : Option String
  extension_9 : Option String
  extension_10 : Option String
  person : Nat
  org_unit : OrgUnitUUID
  engagement_type : ClassUUID
  job_function : ClassUUID
deriving Repr, DecidableEq

/-- The payload update_engagement builds for one existing validity of the
window (src/sdtoolplus/mo/timeline.py lines 443-469): uuid, primary,
extensions 2 through 10 and engagement_type come from the stored validity;
user_key, validity, extension_1, person, org_unit and job_function come from
the synchronized SD data. -/
def update_engagement_payload (user_key : String) (mo_validity : RAValidityInput)
    (sd_extension_1 : String) (person : Nat) (sd_org_unit : OrgUnitUUID)
    (job_function_uuid : ClassUUID) (v : EngagementValidity) : EngagementUpdateInput :=
  { uuid := v.uuid
    user_key := user_key
    primary := v.primary
    validity := mo_validity
    extension_1 := some sd_extension_1
    extension_2 := v.extension_2
    extension_3 := v.extension_3
    extension_4 := v.extension_4
    extension_5 := v.extension_5
    extension_6 := v.extension_6
    extension_7 := v.extension_7
    extension_8 := v.extension_8
    extension_9 := v.extension_9
    extension_10 := v.extension_10
    person := person
    org_unit := sd_org_unit
    engagement_type := v.engagement_type
    job_function := job_function_uuid }

/-- update_engagement from src/sdtoolplus/mo/timeline.py lines 404-489 as the
list of payloads it issues.  window_validities are the engagement validities
found over the update window; when none exist a single payload on the uuid of
the first validity of the whole engagement timeline is issued instead, and
the one() call there fails when the engagement does not exist at all. -/
def update_engagement (window_validities all_validities : List EngagementValidity)
    (user_key : String) (mo_validity : RAValidityInput) (sd_extension_1 : String)
    (person : Nat) (sd_org_unit : OrgUnitUUID)
    (eng_type_uuid job_function_uuid : ClassUUID) :
    Except String (List EngagementUpdateInput) :=
  if window_validities.isEmpty then
    match all_validities with
    | [] => Except.error "too few items in iterable"
    | v0 :: _ =>
      Except.ok
        [{ uuid := v0.uuid
           user_key := user_key
           primary := none
           validity := mo_validity
           extension_1 := some sd_extension_1
           extension_2 := none
           extension_3 := none
           extension_4 := none
           extension_5 := none
           extension_6 := none
           extension_7 := none
           extension_8 := none
           extension_9 := none
           extension_10 := none
           person := person
           org_unit := sd_org_unit
           engagement_type := eng_type_uuid
           job_function := job_function_uuid }]
  else
    Except.ok (window_validities.map
      (update_engagement_payload user_key mo_validity sd_extension_1 person
        sd_org_unit job_function_uuid))

/-- A concrete stored engagement validity for the frame-condition witness. -/
def engagement_validity_example : EngagementValidity :=
  EngagementValidity.mk 42 (some 1) (some "a") none none none none none none none none 9

/-- The payload update_engagement issues for engagement_validity_example. -/
def engagement_update_input_example : EngagementUpdateInput :=
  EngagementUpdateInput.mk 42 "uk" (some 1) (RAValidityInput.mk 0 none) (some "e1")
    (some "a") none none none none none none none none 7 3 9 13

/-- Claim C3: every constructed Interval satisfies end > start; construction
with end <= start fails with a validation error.  This is false: the only
construction-time validation is the timezone check, so an interval whose end
is below its start is accepted. -/
theorem interval_construct_no_order_check :
    Interval.construct (Dt.mk 3 true) (Dt.mk 2 true) true
      = Except.ok { start := 3, end_ := 2, value := true } ∧ (2 : Int) ≤ 3 := by
  constructor
  · rfl
  · decide

/-- Claim C3 (amended): Interval construction succeeds exactly when both the
start and the end carry timezone information; no end-versus-start validation
is performed, so end <= start is accepted. -/
theorem interval_construct_ok_iff {V : Type} (s e : Dt) (v : V) :
    (Interval.construct s e v).isOk = true ↔ (s.hasZoneInfo = true ∧ e.hasZoneInfo = true) := by
  cases hs : s.hasZoneInfo <;> cases he : e.hasZoneInfo <;>
    simp [Interval.construct, hs, he, Except.isOk, Except.toBool]

/-- Claim C8: the mutator's end rewrite maps POSITIVE_INFINITY to None and a
finite end to end minus one day, and it is inverse to the reader's
adjustment: reading back any written end yields the original end. -/
theorem mo_validity_end_roundtrip (s e : Int) :
    (_get_mo_validity s e).to_
        = (if e = POSITIVE_INFINITY then none else some (e - one_day)) ∧
      _mo_end_datetime ((_get_mo_validity s e).to_) = e := by
  refine ⟨rfl, ?_⟩
  by_cases h : e = POSITIVE_INFINITY
  · simp [_get_mo_validity, _mo_end_datetime, h]
  · simp only [_get_mo_validity, _mo_end_datetime, if_neg h]
    omega

lemma pairwise_all_iff_chain {α : Type} (p : α → α → Bool) (l : List α) :
    pairwise_all p l = true ↔ List.Chain' (fun a b => p a b = true) l := by
  induction l with
  | nil => simp [pairwise_all]
  | cons x xs ih =>
    cases xs with
    | nil => simp [pairwise_all]
    | cons y ys =>
      rw [pairwise_all, Bool.and_eq_true, List.chain'_cons, ih]

lemma chain_bool_iff {α : Type} (p : α → α → Bool) (q : α → α → Prop)
    (hpq : ∀ a b, p a b = true ↔ q a b) (l : List α) :
    List.Chain' (fun a b => p a b = true) l ↔ List.Chain' q l :=
  ⟨fun h => h.imp fun a b hab => (hpq a b).mp hab,
    fun h => h.imp fun a b hab => (hpq a b).mpr hab⟩

lemma sorted_check_iff {V : Type} (l : List (Interval V)) :
    sorted_check l = true ↔ List.Sorted (· ≤ ·) (starts_list l) := by
  rw [sorted_check, decide_eq_true_eq]
  constructor
  · intro h
    rw [h]
    exact List.sorted_insertionSort _ _
  · intro h
    exact (List.Sorted.insertionSort_eq h).symm

/-- Claim C6: Timeline construction succeeds exactly on interval sequences
that are sorted by start, have no adjacent overlapping pair (end above the
next start), and no adjacent touching pair with equal values; it fails with
a validation error otherwise. -/
theorem timeline_validators_iff {V : Type} [DecidableEq V] (l : List (Interval V)) :
    timeline_validators l = true ↔
      (List.Sorted (· ≤ ·) (starts_list l) ∧
        List.Chain' (fun i1 i2 : Interval V => i1.end_ ≤ i2.start) l ∧
        List.Chain' (fun i1 i2 : Interval V => i1.end_ = i2.start → i1.value ≠ i2.value) l) := by
  have h2 : no_overlap_check l = true ↔
      List.Chain' (fun i1 i2 : Interval V => i1.end_ ≤ i2.start) l := by
    rw [no_overlap_check, pairwise_all_iff_chain]
    exact chain_bool_iff _ _ (fun a b => by simp) l
  have h3 : no_touching_equal_check l = true ↔
      List.Chain' (fun i1 i2 : Interval V => i1.end_ = i2.start → i1.value ≠ i2.value) l := by
    rw [no_touching_equal_check, pairwise_all_iff_chain]
    refine chain_bool_iff _ _ (fun a b => ?_) l
    by_cases h : a.end_ = b.start <;> simp [h]
  rw [timeline_validators, Bool.and_eq_true, Bool.and_eq_true, sorted_check_iff, h2, h3,
    and_assoc]

lemma chain_sep_pairwise {V : Type} :
    ∀ l : List (Interval V),
      List.Chain' (fun i1 i2 : Interval V => i1.end_ ≤ i2.start) l →
      List.Pairwise (fun i1 i2 : Interval V => i1.start ≤ i2.start) l →
      List.Pairwise (fun i1 i2 : Interval V => i1.end_ ≤ i2.start) l
  | [], _, _ => List.Pairwise.nil
  | [x], _, _ => by simp
  | x :: y :: ys, hc, hp => by
    rw [List.chain'_cons] at hc
    rw [List.pairwise_cons] at hp
    have ih := chain_sep_pairwise (y :: ys) hc.2 hp.2
    refine List.Pairwise.cons ?_ ih
    intro z hz
    rcases List.mem_cons.mp hz with rfl | hz'
    · exact hc.1
    · exact le_trans hc.1 ((List.pairwise_cons.mp hp.2).1 z hz')

/-- Claim C7: on a timeline accepted by the validators, entity_at returns the
unique covering interval when exactly one interval of the timeline covers the
timestamp, and the no-value outcome when no interval covers it. -/
theorem entity_at_spec {V : Type} [DecidableEq V] (l : List (Interval V)) (t : Int)
    (hwf : timeline_validators l = true) :
    (∀ I : Interval V, I ∈ l → covers I t = true →
        (∀ J : Interval V, J ∈ l → covers J t = true → J = I) →
        entity_at l t = EntityAtResult.found I) ∧
      ((∀ J : Interval V, J ∈ l → covers J t = false) →
        entity_at l t = EntityAtResult.noValue) := by
  constructor
  · intro I hI hIc huniq
    have hsorted : List.Pairwise (fun i1 i2 : Interval V => i1.start ≤ i2.start) l :=
      List.pairwise_map.mp ((timeline_validators_iff l).mp hwf).1
    have hchain : List.Chain' (fun i1 i2 : Interval V => i1.end_ ≤ i2.start) l :=
      ((timeline_validators_iff l).mp hwf).2.1
    have hsepf : List.Pairwise (fun i1 i2 : Interval V => i1.end_ ≤ i2.start)
        (l.filter (fun e => covers e t)) :=
      (chain_sep_pairwise l hchain hsorted).filter _
    have hImem : I ∈ l.filter (fun e => covers e t) := List.mem_filter.mpr ⟨hI, hIc⟩
    rcases hf : l.filter (fun e => covers e t) with _ | ⟨a, _ | ⟨b, rest⟩⟩
    · rw [hf] at hImem
      exact absurd hImem (List.not_mem_nil I)
    · rw [hf] at hImem
      have haI : I = a := by
        rcases List.mem_cons.mp hImem with h | h
        · exact h
        · exact absurd h (List.not_mem_nil I)
      rw [entity_at, hf, haI]
    · rw [hf] at hsepf
      have hab : a.end_ ≤ b.start :=
        (List.pairwise_cons.mp hsepf).1 b (List.mem_cons_self _ _)
      have ha : a ∈ l.filter (fun e => covers e t) := by
        rw [hf]; exact List.mem_cons_self _ _
      have hb : b ∈ l.filter (fun e => covers e t) := by
        rw [hf]; exact List.mem_cons_of_mem _ (List.mem_cons_self _ _)
      have hac := (List.mem_filter.mp ha).2
      have hbc := (List.mem_filter.mp hb).2
      rw [covers, Bool.and_eq_true, decide_eq_true_eq, decide_eq_true_eq] at hac hbc
      omega
  · intro hnone
    have hf : l.filter (fun e => covers e t) = [] := by
      rw [List.filter_eq_nil_iff]
      intro a ha
      simp [hnone a ha]
    rw [entity_at, hf]

/-- Witness: entity_at_spec applied to a concrete two-interval timeline, at a
covered timestamp and at an uncovered one. -/
theorem entity_at_spec_witness :
    timeline_validators [Interval.mk 0 5 true, Interval.mk 5 10 false] = true ∧
      entity_at [Interval.mk 0 5 true, Interval.mk 5 10 false] 3
        = EntityAtResult.found (Interval.mk 0 5 true) ∧
      entity_at [Interval.mk 0 5 true, Interval.mk 5 10 false] 12
        = EntityAtResult.noValue := by
  refine ⟨by decide, ?_, ?_⟩
  · exact (entity_at_spec [Interval.mk 0 5 true, Interval.mk 5 10 false] 3 (by decide)).1
      (Interval.mk 0 5 true) (by decide) (by decide) (by decide)
  · exact (entity_at_spec [Interval.mk 0 5 true, Interval.mk 5 10 false] 12 (by decide)).2
      (by decide)

lemma splitWhen_congr {α : Type} (p q : α → α → Bool) :
    ∀ l : List α, List.Chain' (fun a b => p a b = q a b) l →
      splitWhen p l = splitWhen q l
  | [], _ => rfl
  | [_], _ => rfl
  | x :: y :: ys, h => by
    rw [List.chain'_cons] at h
    have ih := splitWhen_congr p q (y :: ys) h.2
    simp only [splitWhen]
    rw [ih, h.1]

/-- Claim C5 (amended): for every input sequence sorted by start whose
adjacent intervals do not overlap (i.end less than or equal to j.start),
combine_intervals performs exactly the claimed grouping: each maximal run of
adjacent touching equal-valued intervals becomes the single interval
(first.start, last.end, first.value), and a gap or a value change terminates
a run.  On sorted inputs with overlapping adjacent pairs the code instead
merges equal-valued neighbours, see the counterexample. -/
theorem combine_intervals_grouping {V : Type} [DecidableEq V] (l : List (Interval V))
    (h_sorted : List.Sorted (· ≤ ·) (starts_list l))
    (h_sep : List.Chain' (fun i1 i2 : Interval V => i1.end_ ≤ i2.start) l) :
    combine_intervals l = combine_intervals_spec l := by
  rw [combine_intervals, combine_intervals_spec]
  congr 1
  apply splitWhen_congr
  refine h_sep.imp (fun a b hab => ?_)
  by_cases h1 : a.end_ = b.start
  · by_cases h2 : a.value = b.value <;> simp [h1, h2]
  · have h3 : a.end_ < b.start := lt_of_le_of_ne hab h1
    by_cases h2 : a.value = b.value <;> simp [h1, h2, h3]

/-- Witness: combine_intervals_grouping applied to a concrete sorted,
non-overlapping input with one touching equal-valued pair and one gap. -/
theorem combine_intervals_grouping_witness :
    combine_intervals [Interval.mk 0 2 true, Interval.mk 2 4 true, Interval.mk 5 6 true]
      = combine_intervals_spec
          [Interval.mk 0 2 true, Interval.mk 2 4 true, Interval.mk 5 6 true] :=
  combine_intervals_grouping _ (by decide)
    (by norm_num [List.chain'_cons, List.chain'_singleton])

/-- Claim C5 counterexample: the input [(0,5,true), (3,7,true)] is sorted by
start, but its two intervals overlap and carry the same value; the code
merges them into (0,7,true) whereas the claimed grouping (a group continues
only across i.end = j.start with equal values) keeps them apart. -/
theorem combine_intervals_overlap_counterexample :
    sorted_check [Interval.mk 0 5 true, Interval.mk 3 7 true] = true ∧
      combine_intervals [Interval.mk 0 5 true, Interval.mk 3 7 true]
        = [Interval.mk 0 7 true] ∧
      combine_intervals_spec [Interval.mk 0 5 true, Interval.mk 3 7 true]
        = [Interval.mk 0 5 true, Interval.mk 3 7 true] :=
  ⟨by decide, by decide, by decide⟩

/-- Claim C4: the diff of a well-formed timeline with itself is the empty
timeline. -/
theorem diff_self_empty {V : Type} [DecidableEq V] (l : List (Interval V))
    (hwf : timeline_validators l = true) : diff l l = [] := by
  have hstep : ∀ ab : Int × Int, diff_step l l ab = none := by
    intro ab
    cases hv : value_at l ab.1 <;> simp [diff_step, hv]
  rw [diff, List.filterMap_eq_nil_iff.mpr (fun ab _ => hstep ab)]
  rfl

/-- Witness: diff_self_empty on a concrete well-formed two-interval
timeline. -/
theorem diff_self_empty_witness :
    diff [Interval.mk 0 5 true, Interval.mk 5 10 false]
        [Interval.mk 0 5 true, Interval.mk 5 10 false] = [] :=
  diff_self_empty _ (by decide)

/-- Claim C2 (amended): the endpoint partition sync_ou iterates is the sorted
union of the starts and ends of the active, name, unit_id and unit_level
members of both unit timelines; the parent member does not contribute. -/
theorem sync_ou_endpoints_mem (sd mo : UnitTimeline) (t : Int) :
    t ∈ sync_ou_endpoints sd mo ↔
      (is_endpoint t sd.active ∨ is_endpoint t sd.name ∨ is_endpoint t sd.unit_id ∨
        is_endpoint t sd.unit_level ∨ is_endpoint t mo.active ∨ is_endpoint t mo.name ∨
        is_endpoint t mo.unit_id ∨ is_endpoint t mo.unit_level) := by
  rw [sync_ou_endpoints, (List.perm_insertionSort _ _).mem_iff, List.mem_dedup]
  simp [_get_ou_interval_endpoints, endpoints_of, is_endpoint, or_assoc]

/-- Claim C2 counterexample: a unit timeline whose parent member alone holds
an interval.  The claimed partition contains its endpoints 7 and 9; the
partition sync_ou iterates is empty, because _get_ou_interval_endpoints skips
the parent timeline. -/
theorem sync_ou_endpoints_parent_counterexample :
    sync_ou_endpoints (UnitTimeline.mk [] [] [] [] [Interval.mk 7 9 (some 1)])
        (UnitTimeline.mk [] [] [] [] []) = [] ∧
      sync_ou_endpoints_spec (UnitTimeline.mk [] [] [] [] [Interval.mk 7 9 (some 1)])
        (UnitTimeline.mk [] [] [] [] []) = [7, 9] :=
  ⟨by decide, by decide⟩

lemma sync_ou_loop_append (sd mo : UnitTimeline) :
    ∀ (pres rest : List (Int × Int)) (st : Bool),
      sync_ou_loop sd mo st (pres ++ rest)
        = sync_ou_loop sd mo st pres ++
            sync_ou_loop sd mo
              (st || pres.any (fun ab => !sd.equal_at ab.1 mo && sd.has_value ab.1))
              rest
  | [], rest, st => by simp [sync_ou_loop]
  | ab :: pres, rest, st => by
    have ih := sync_ou_loop_append sd mo pres rest
    cases hb1 : sd.equal_at ab.1 mo <;> cases hb2 : sd.has_value ab.1 <;> cases st <;>
      simp [List.cons_append, sync_ou_loop, sync_ou_step, hb1, hb2, List.any_cons, ih]

/-- Claim C1 (amended): in sync_ou, for an adjacent endpoint pair (a, b)
where the SD and MO unit timelines differ at a and the SD timeline has a
value at a, the update mutation for [a, b) is emitted exactly when the
per-iteration guard get_org_unit_timeline(from_date=None, to_date=None)
returns the unit — that is, the unit had some MO validity before the run
(anywhere on its timeline, not over [a, b)) or an earlier pair of the same
run already emitted a create; otherwise the create mutation for [a, b) is
emitted, and the guard is nonempty for every later pair. -/
theorem sync_ou_update_iff (sd mo : UnitTimeline) (repo : List OrgUnitValidity)
    (pres posts : List (Int × Int)) (a b : Int)
    (h_wf_sd : sd.wellFormed = true) (h_wf_mo : mo.wellFormed = true)
    (h_split : adjacent_pairs (sync_ou_endpoints sd mo) = pres ++ (a, b) :: posts)
    (h_neq : sd.equal_at a mo = false)
    (h_val : sd.has_value a = true) :
    sync_ou sd mo repo
      = sync_ou_loop sd mo (!repo.isEmpty) pres ++
          (if (!repo.isEmpty ||
                pres.any (fun ab => !sd.equal_at ab.1 mo && sd.has_value ab.1)) = true
            then OUMutation.update a b
            else OUMutation.create a b) ::
          sync_ou_loop sd mo true posts := by
  rw [sync_ou, h_split, sync_ou_loop_append]
  congr 1
  cases hst : (!repo.isEmpty ||
      pres.any (fun ab => !sd.equal_at ab.1 mo && sd.has_value ab.1))
  · simp [sync_ou_loop, sync_ou_step, h_neq, h_val]
  · simp [sync_ou_loop, sync_ou_step, h_neq, h_val]

/-- Witness: sync_ou_update_iff at the second differing window of a unit
absent from MO whose SD name changes at 5 — the earlier pair (0, 5) already
created the unit, so the pair (5, 10) yields an update. -/
theorem sync_ou_update_iff_witness :
    sync_ou sd_name_change_example mo_empty_example []
      = sync_ou_loop sd_name_change_example mo_empty_example
            (!(List.isEmpty ([] : List OrgUnitValidity))) [(0, 5)] ++
          (if (!(List.isEmpty ([] : List OrgUnitValidity)) ||
                List.any [((0 : Int), (5 : Int))] (fun ab =>
                  !(sd_name_change_example.equal_at ab.1 mo_empty_example) &&
                    sd_name_change_example.has_value ab.1)) = true
            then OUMutation.update 5 10
            else OUMutation.create 5 10) ::
          sync_ou_loop sd_name_change_example mo_empty_example true [] :=
  sync_ou_update_iff sd_name_change_example mo_empty_example [] [(0, 5)] [] 5 10
    (by decide) (by decide) (by decide) (by decide) (by decide)

/-- Claim C1 counterexample: the SD timeline has a value on [0, 5) where
MO's unit timeline is empty, and the unit owns a single MO validity row
[10, 20] far away from [0, 5).  No MO validity exists over [0, 5), so the
claim requires a create mutation there; sync_ou emits an update. -/
theorem sync_ou_update_counterexample :
    (OUMutation.update 0 5 ∈
        sync_ou
          (UnitTimeline.mk [Interval.mk 0 5 true] [Interval.mk 0 5 "n"]
            [Interval.mk 0 5 "i"] [Interval.mk 0 5 (some "l")]
            [Interval.mk 0 5 (some 1)])
          (UnitTimeline.mk [] [] [] [] []) [OrgUnitValidity.mk 10 (some 20)]) ∧
      (OUMutation.create 0 5 ∉
        sync_ou
          (UnitTimeline.mk [Interval.mk 0 5 true] [Interval.mk 0 5 "n"]
            [Interval.mk 0 5 "i"] [Interval.mk 0 5 (some "l")]
            [Interval.mk 0 5 (some 1)])
          (UnitTimeline.mk [] [] [] [] []) [OrgUnitValidity.mk 10 (some 20)]) ∧
      (∀ v ∈ [OrgUnitValidity.mk 10 (some 20)], validity_overlaps v 0 5 = false) :=
  ⟨by decide, by decide, by decide⟩

/-- Claim C9: in a non-dry run with apply-business-logic enabled, the side
channel fires for a successfully executed unit mutation exactly when the
mutation is an Add or an Update (never a Terminate) and the unit does not
lie within a configured obsolete-units subtree. -/
theorem should_apply_ny_logic_iff (settings : SDToolPlusSettings)
    (mutation : AnyMutation) (node : OrgUnitNode)
    (h_enabled : settings.apply_ny_logic = true) :
    _should_apply_ny_logic settings mutation node false = true ↔
      ((mutation = AnyMutation.addOrgUnit ∨ mutation = AnyMutation.updateOrgUnit) ∧
        in_obsolete_units_subtree node settings.obsolete_unit_roots = false) := by
  cases mutation <;>
    cases hob : in_obsolete_units_subtree node settings.obsolete_unit_roots <;>
      simp [_should_apply_ny_logic, isinstance_UpdateOrgUnitMutation, h_enabled, hob]

/-- Witness: should_apply_ny_logic_iff at a concrete Add mutation of a unit
outside the obsolete subtree. -/
theorem should_apply_ny_logic_iff_witness :
    _should_apply_ny_logic (SDToolPlusSettings.mk true [5]) AnyMutation.addOrgUnit
        (OrgUnitNode.mk 1 [1, 2]) false = true ↔
      ((AnyMutation.addOrgUnit = AnyMutation.addOrgUnit ∨
          AnyMutation.addOrgUnit = AnyMutation.updateOrgUnit) ∧
        in_obsolete_units_subtree (OrgUnitNode.mk 1 [1, 2]) [5] = false) :=
  should_apply_ny_logic_iff (SDToolPlusSettings.mk true [5]) AnyMutation.addOrgUnit
    (OrgUnitNode.mk 1 [1, 2]) (by decide)

/-- Claim C10: when update_engagement finds existing validities in the update
window, every payload it issues copies primary, extensions 2 through 10 and
engagement_type unchanged from the corresponding stored validity (and keeps
its uuid), modifying only user_key, validity, extension_1, person, org_unit
and job_function. -/
theorem update_engagement_frame (wvs avs : List EngagementValidity)
    (user_key : String) (mo_validity : RAValidityInput) (sd_extension_1 : String)
    (person : Nat) (sd_org_unit : OrgUnitUUID)
    (eng_type_uuid job_function_uuid : ClassUUID)
    (n : Nat) (v : EngagementValidity) (ps : List EngagementUpdateInput)
    (p : EngagementUpdateInput)
    (hv : wvs[n]? = some v)
    (hps : update_engagement wvs avs user_key mo_validity sd_extension_1 person
        sd_org_unit eng_type_uuid job_function_uuid = Except.ok ps)
    (hp : ps[n]? = some p) :
    p.uuid = v.uuid ∧ p.primary = v.primary ∧ p.extension_2 = v.extension_2 ∧
      p.extension_3 = v.extension_3 ∧ p.extension_4 = v.extension_4 ∧
      p.extension_5 = v.extension_5 ∧ p.extension_6 = v.extension_6 ∧
      p.extension_7 = v.extension_7 ∧ p.extension_8 = v.extension_8 ∧
      p.extension_9 = v.extension_9 ∧ p.extension_10 = v.extension_10 ∧
      p.engagement_type = v.engagement_type ∧ p.user_key = user_key ∧
      p.validity = mo_validity ∧ p.extension_1 = some sd_extension_1 ∧
      p.person = person ∧ p.org_unit = sd_org_unit ∧
      p.job_function = job_function_uuid := by
  have hne : wvs.isEmpty = false := by
    cases wvs
    · simp at hv
    · rfl
  have hcond : ¬(wvs.isEmpty = true) := by
    rw [hne]
    exact Bool.false_ne_true
  rw [update_engagement.eq_def, if_neg hcond] at hps
  injection hps with hps2
  subst hps2
  rw [List.getElem?_map, hv] at hp
  simp only [Option.map_some'] at hp
  injection hp with hp2
  subst hp2
  exact ⟨rfl, rfl, rfl, rfl, rfl, rfl, rfl, rfl, rfl, rfl, rfl, rfl, rfl, rfl, rfl,
    rfl, rfl, rfl⟩

/-- Witness: update_engagement_frame at a window holding exactly
engagement_validity_example. -/
theorem update_engagement_frame_witness :
    engagement_update_input_example.uuid = engagement_validity_example.uuid ∧
      engagement_update_input_example.primary = engagement_validity_example.primary ∧
      engagement_update_input_example.extension_2
        = engagement_validity_example.extension_2 ∧
      engagement_update_input_example.extension_3
        = engagement_validity_example.extension_3 ∧
      engagement_update_input_example.extension_4
        = engagement_validity_example.extension_4 ∧
      engagement_update_input_example.extension_5
        = engagement_validity_example.extension_5 ∧
      engagement_update_input_example.extension_6
        = engagement_validity_example.extension_6 ∧
      engagement_update_input_example.extension_7
        = engagement_validity_example.extension_7 ∧
      engagement_update_input_example.extension_8
        = engagement_validity_example.extension_8 ∧
      engagement_update_input_example.extension_9
        = engagement_validity_example.extension_9 ∧
      engagement_update_input_example.extension_10
        = engagement_validity_example.extension_10 ∧
      engagement_update_input_example.engagement_type
        = engagement_validity_example.engagement_type ∧
      engagement_update_input_example.user_key = "uk" ∧
      engagement_update_input_example.validity = RAValidityInput.mk 0 none ∧
      engagement_update_input_example.extension_1 = some "e1" ∧
      engagement_update_input_example.person = 7 ∧
      engagement_update_input_example.org_unit = 3 ∧
      engagement_update_input_example.job_function = 13 :=
  update_engagement_frame [engagement_validity_example] [] "uk"
    (RAValidityInput.mk 0 none) "e1" 7 3 9 13 0 engagement_validity_example
    [engagement_update_input_example] engagement_update_input_example rfl rfl rfl

/-- Sanity check: the modelled combine_intervals reproduces
test_combine_intervals of src/tests/test_models.py (t1..t6 as 1..6). -/
lemma combine_intervals_matches_test :
    combine_intervals [Interval.mk 1 2 true, Interval.mk 3 4 true, Interval.mk 4 5 true,
        Interval.mk 5 6 true, Interval.mk 6 POSITIVE_INFINITY false]
      = [Interval.mk 1 2 true, Interval.mk 3 6 true,
          Interval.mk 6 POSITIVE_INFINITY false] := by decide

/-- Sanity check: the spec-modelled diff reproduces test_timeline_diff4 of
src/tests/test_models.py. -/
lemma diff_matches_test_timeline_diff4 :
    diff [Interval.mk 2 4 true] [Interval.mk 1 3 true]
      = [Interval.mk 1 2 none, Interval.mk 3 4 (some true)] := by decide

/-- Sanity check: the spec-modelled diff reproduces test_timeline_diff6 of
src/tests/test_models.py, which is scenario S7 of the spec (t1..t6 as
1..6). -/
lemma diff_matches_test_timeline_diff6 :
    diff [Interval.mk 1 3 true, Interval.mk 5 6 false]
        [Interval.mk 2 4 true, Interval.mk 4 POSITIVE_INFINITY false]
      = [Interval.mk 1 2 (some true), Interval.mk 3 5 none,
          Interval.mk 6 POSITIVE_INFINITY none] := by decide

/-- Sanity check: for a unit absent from MO whose SD name changes at 5, the
loop emits a create for the first window and an update for the second — the
per-iteration guard re-query returns the unit created by the first
iteration. -/
lemma sync_ou_create_then_update_trace :
    sync_ou sd_name_change_example mo_empty_example []
      = [OUMutation.create 0 5, OUMutation.update 5 10] := by decide

end Sdtoolplus
